import Mathlib

/-
Verification of the golang-question repository: the errorx package (error
values with code, type tag, cause and captured stack) and the config package
(a generic single-value configuration holder with one observer slot).

Shallow embedding conventions:
  - Go interface values that may be nil are modelled as Option.
  - The runtime stack captured by captureStack is modelled as an explicit
    parameter of the constructing functions (it is environment input).
  - Callbacks func(T) are modelled by identifiers (Nat); an invocation of
    callback cb with argument v is recorded as the event (cb, v) in the list
    of events returned by the operation that performs it, so an event being
    in an operation result means the callback ran before that operation
    returned.
  - The mutex is dropped: operations are atomic state transformers.
-/

namespace errorx

/- A stack frame recorded by captureStack: function name, file, line. -/
structure Frame where
  Name : String
  File : String
  Line : Nat
deriving Repr, DecidableEq

/- Stack is a slice of frames. -/
abbrev Stack := List Frame

/- A Go error value: either a plain error (only a message, as produced by
the standard library) or a customError with message, code, errType, stack
and optional cause. The zero values of the omitted customError fields are
0 for code and the empty string for errType, as in Go struct literals. -/
inductive GoError where
  | basic (msg : String)
  | custom (msg : String) (code : Int) (errType : String) (stack : Stack) (cause : Option GoError)

/- Error() string: both plain errors and customError return their message. -/
def GoError.Error : GoError → String
  | .basic m => m
  | .custom m _ _ _ _ => m

/- customError.Cause returns the cause field; a plain error has none. -/
def GoError.Cause : GoError → Option GoError
  | .basic _ => none
  | .custom _ _ _ _ c => c

/- customError.Code returns the code field; a plain error has no code,
modelled as the zero value 0. -/
def GoError.Code : GoError → Int
  | .basic _ => 0
  | .custom _ c _ _ _ => c

/- customError.Type returns the errType field; a plain error has none,
modelled as the zero value, the empty string. -/
def GoError.Type : GoError → String
  | .basic _ => ""
  | .custom _ _ t _ _ => t

/- customError.Stack returns the stack field. -/
def GoError.Stack : GoError → Stack
  | .basic _ => []
  | .custom _ _ _ s _ => s

/- Wrap(err): nil in, nil out; otherwise a new customError whose msg is
err.Error(), whose cause is err, and whose stack is captured at the wrap
site (the stk parameter). code and errType are left at their zero values. -/
def Wrap (stk : Stack) (err : Option GoError) : Option GoError :=
  match err with
  | none => none
  | some e => some (.custom e.Error 0 "" stk (some e))

/- New(msg): a customError with only a message and a fresh stack. -/
def New (stk : Stack) (msg : String) : GoError :=
  .custom msg 0 "" stk none

/- C(code, msg): a customError with a code, a message and a fresh stack. -/
def C (stk : Stack) (code : Int) (msg : String) : GoError :=
  .custom msg code "" stk none

end errorx

namespace config

variable {T : Type}

/- localManager[T]: the in-memory holder. data is the stored value and
callback the single observer slot (nil-able func(T), modelled as an
optional callback identifier); the sync.RWMutex is dropped since
operations are modelled as atomic. -/
structure localManager (T : Type) where
  data : T
  callback : Option Nat
deriving Repr, DecidableEq

/- Get returns the stored data (under the read lock in the source). -/
def localManager.Get (m : localManager T) : T :=
  m.data

/- Update stores newData, then, while still inside the operation, invokes
the registered callback (if any) with newData, and returns nil error.
Result: the new state, the list of callback invocations performed before
returning, and the returned errorx.Error (always nil/none). -/
def localManager.Update (m : localManager T) (newData : T) :
    localManager T × List (Nat × T) × Option errorx.GoError :=
  let m2 : localManager T := { m with data := newData }
  match m.callback with
  | some cb => (m2, [(cb, newData)], none)
  | none => (m2, [], none)

/- OnChange stores the callback in the single observer slot, replacing any
previous one. -/
def localManager.OnChange (m : localManager T) (cb : Nat) : localManager T :=
  { m with callback := some cb }

/- The cancel closure returned by OnChange: in the source it sets
m.callback = nil unconditionally, with no check that the callback it
registered is still the current one, so every handle is the same state
transformer. -/
def localManager.cancelOnChange (m : localManager T) : localManager T :=
  { m with callback := none }

/- Watch returns the manager itself. -/
def localManager.Watch (m : localManager T) : localManager T :=
  m

/- isZeroValue: reflect.DeepEqual of the value against the zero value of
its type; the zero value of T is the explicit parameter zeroT. -/
def isZeroValue [DecidableEq T] (zeroT : T) (value : T) : Bool :=
  decide (value = zeroT)

/- InitData sets data to initialData only when the current data is the
zero value of T, and returns the manager itself for chaining. -/
def localManager.InitData [DecidableEq T] (zeroT : T) (m : localManager T)
    (initialData : T) : localManager T :=
  if isZeroValue zeroT m.data then { m with data := initialData } else m

/- Local[T](): a fresh zero-valued localManager, data at the zero value of
T and no callback registered. -/
def Local (zeroT : T) : localManager T :=
  { data := zeroT, callback := none }

/- Etcd[T](): the backend-fed variant; the source body is a TODO that
returns nil, an absent Manager[T] handle, modelled as none. -/
def Etcd (T : Type) : Option (localManager T) :=
  none

/- The mutating operations of the holder, for stating trace properties. -/
inductive Op (T : Type) where
  | update (v : T)
  | initData (v : T)
  | onChange (cb : Nat)
  | cancel
deriving Repr, DecidableEq

/- One operation applied to a state: the next state and the callback
invocations the operation performed. -/
def step [DecidableEq T] (zeroT : T) (m : localManager T) : Op T → localManager T × List (Nat × T)
  | .update v => ((m.Update v).1, (m.Update v).2.1)
  | .initData v => (m.InitData zeroT v, [])
  | .onChange cb => (m.OnChange cb, [])
  | .cancel => m.cancelOnChange |> fun m2 => (m2, [])

/- A sequence of operations applied in order, accumulating the events. -/
def run [DecidableEq T] (zeroT : T) (m : localManager T) : List (Op T) → localManager T × List (Nat × T)
  | [] => (m, [])
  | op :: ops =>
      let r := step zeroT m op
      let r2 := run zeroT r.1 ops
      (r2.1, r.2 ++ r2.2)

/- The observers currently registered on a holder, as a list. -/
def observers (m : localManager T) : List Nat :=
  m.callback.toList

end config

namespace errorx

/-- Claim C7: Wrap of an absent error is absent; for every non-nil error
err, Wrap(err) is a non-absent Error whose Cause() equals err and whose
Error() message equals the message of err. -/
theorem C7_wrap_nil_and_cause :
    (∀ stk : Stack, Wrap stk none = none) ∧
    (∀ (stk : Stack) (e : GoError), ∃ w : GoError,
      Wrap stk (some e) = some w ∧ w.Cause = some e ∧ w.Error = e.Error) := by
  refine ⟨fun _ => rfl, fun stk e => ⟨.custom e.Error 0 "" stk (some e), rfl, rfl, rfl⟩⟩

/-- Claim C10: for every non-nil error err, including one that is itself a
customError carrying a non-zero code or a non-empty type tag, the wrapper
returned by Wrap(err) has Code() equal to 0 and Type() equal to the empty
string: wrapping never copies the cause code or type tag. -/
theorem C10_wrap_zero_code_and_type :
    ∀ (stk : Stack) (e : GoError), ∃ w : GoError,
      Wrap stk (some e) = some w ∧ w.Code = 0 ∧ w.Type = "" := by
  intro stk e
  exact ⟨.custom e.Error 0 "" stk (some e), rfl, rfl, rfl⟩

end errorx

namespace config

variable {T : Type}

/-- Claim C1: for every holder and every value v, Update(v) stores exactly
v (a subsequent Get returns v unchanged) and Update returns nil error. -/
theorem C1_update_stores_and_succeeds (m : localManager T) (v : T) :
    ((m.Update v).1).Get = v ∧ (m.Update v).2.2 = none := by
  cases m with
  | mk d cb => cases cb <;> simp [localManager.Update, localManager.Get]

/-- Claim C2: when the stored value equals the zero value of T, InitData(v)
sets the data to v keeping the rest of the holder; otherwise InitData(v)
returns the holder completely unchanged. In both cases the returned
manager is the holder itself (its full post-call state), which is what the
source returns for chaining. -/
theorem C2_initdata_conditional_set [DecidableEq T] (zeroT : T)
    (m : localManager T) (v : T) :
    (m.data = zeroT → m.InitData zeroT v = { m with data := v }) ∧
    (m.data ≠ zeroT → m.InitData zeroT v = m) := by
  constructor
  · intro h; simp [localManager.InitData, isZeroValue, h]
  · intro h; simp [localManager.InitData, isZeroValue, h]

/-- Witness for C2 at T = Nat: the zero branch sets 0 to 5, the non-zero
branch leaves 3 untouched. -/
theorem C2_initdata_conditional_set_witness :
    (Local (0 : Nat)).InitData 0 5 = { data := 5, callback := none } ∧
    (({ data := 3, callback := none } : localManager Nat)).InitData 0 5 =
      { data := 3, callback := none } :=
  ⟨(C2_initdata_conditional_set 0 (Local 0) 5).1 rfl,
   (C2_initdata_conditional_set 0 ⟨3, none⟩ 5).2 (by decide)⟩

/-- Claim C3: registering cb via OnChange and then calling Update(v)
invokes cb exactly once with argument v — the single event (cb, v) is
produced inside Update, hence before Update returns — and Update still
returns nil error. -/
theorem C3_onchange_then_update_fires_once (m : localManager T) (cb : Nat) (v : T) :
    ((m.OnChange cb).Update v).2.1 = [(cb, v)] ∧
    ((m.OnChange cb).Update v).2.2 = none := by
  simp [localManager.OnChange, localManager.Update]

end config

namespace config

/-- Claim C4 counterexample: after OnChange(1), then OnChange(2), calling
the first cancel handle is not a no-op — it clears the observer slot, so
the newer callback 2 is removed and a later Update(5) fires nothing,
contradicting the claim that the newer callback keeps firing. -/
theorem C4_cex_cancel_removes_newer :
    ((((Local (0 : Nat)).OnChange 1).OnChange 2).cancelOnChange).callback = none ∧
    ((((Local (0 : Nat)).OnChange 1).OnChange 2).cancelOnChange.Update 5).2.1 ≠ [(2, 5)] := by
  decide

/-- Claim C4 amended: the cancel handle returned by OnChange
unconditionally clears whatever observer is currently registered — also a
newer callback that replaced the one this handle registered — so a later
Update invokes no callback; the handle is idempotent (a second call
changes nothing). -/
theorem C4_amended_cancel_unconditional (m : localManager T) (v : T) :
    (m.cancelOnChange).callback = none ∧
    m.cancelOnChange.cancelOnChange = m.cancelOnChange ∧
    (m.cancelOnChange.Update v).2.1 = [] := by
  refine ⟨rfl, rfl, ?_⟩
  simp [localManager.cancelOnChange, localManager.Update]

/-- Helper: every operation preserves that a given callback identifier is
not the registered one, as long as the operation is not a registration of
that very identifier. -/
theorem step_preserves_not_registered [DecidableEq T] (zeroT : T)
    (m : localManager T) (a : Nat) (hcb : m.callback ≠ some a)
    (op : Op T) (hop : op ≠ Op.onChange a) :
    (step zeroT m op).1.callback ≠ some a := by
  cases op with
  | update v =>
      cases h : m.callback with
      | none => simp [step, localManager.Update, h]
      | some cb =>
          simp [step, localManager.Update, h]
          simp [h] at hcb
          exact hcb
  | initData v =>
      by_cases h : isZeroValue zeroT m.data <;>
        simp [step, localManager.InitData, h, hcb]
  | onChange cb =>
      have : cb ≠ a := by intro h; exact hop (by rw [h])
      simp [step, localManager.OnChange, this]
  | cancel =>
      simp [step, localManager.cancelOnChange]

/-- Helper: an operation run on a state where callback a is not registered
never produces an invocation of a. -/
theorem step_no_event_of_not_registered [DecidableEq T] (zeroT : T)
    (m : localManager T) (a : Nat) (hcb : m.callback ≠ some a)
    (op : Op T) (w : T) :
    (a, w) ∉ (step zeroT m op).2 := by
  cases op with
  | update v =>
      cases h : m.callback with
      | none => simp [step, localManager.Update, h]
      | some cb =>
          have : cb ≠ a := by intro hc; rw [hc] at h; exact hcb h
          simp [step, localManager.Update, h, Ne.symm this]
  | initData v => simp [step]
  | onChange cb => simp [step]
  | cancel => simp [step]

/-- Helper: over any sequence of operations that never re-registers the
callback identifier a, an unregistered a is never invoked. -/
theorem run_no_event_of_not_registered [DecidableEq T] (zeroT : T) (a : Nat) :
    ∀ (ops : List (Op T)) (m : localManager T), m.callback ≠ some a →
      (∀ op ∈ ops, op ≠ Op.onChange a) →
      ∀ w, (a, w) ∉ (run zeroT m ops).2 := by
  intro ops
  induction ops with
  | nil => intro m hcb hops w; simp [run]
  | cons op rest ih =>
      intro m hcb hops w
      simp only [run, List.mem_append]
      push_neg
      constructor
      · exact step_no_event_of_not_registered zeroT m a hcb op w
      · exact ih (step zeroT m op).1
          (step_preserves_not_registered zeroT m a hcb op (hops op (by simp)))
          (fun o ho => hops o (by simp [ho])) w

/-- Claim C5: at most one observer is registered at any time (every
operation leaves at most one entry in the observer slot); a second
OnChange registration replaces the first (the two states are equal); on
the next Update only the most recent observer b fires, exactly once; and
the earlier observer a is never invoked again over any continuation that
does not re-register a. -/
theorem C5_single_observer_replacement [DecidableEq T] (zeroT : T)
    (m : localManager T) (a b : Nat) (hab : a ≠ b) (v : T) :
    (∀ (s : localManager T) (op : Op T), (observers (step zeroT s op).1).length ≤ 1) ∧
    ((m.OnChange a).OnChange b = m.OnChange b) ∧
    (((m.OnChange a).OnChange b).Update v).2.1 = [(b, v)] ∧
    (∀ ops : List (Op T), (∀ op ∈ ops, op ≠ Op.onChange a) →
      ∀ w, (a, w) ∉ (run zeroT ((m.OnChange a).OnChange b) ops).2) := by
  refine ⟨?_, rfl, ?_, ?_⟩
  · intro s op
    rcases h : (step zeroT s op).1.callback with _ | cb <;> simp [observers, h]
  · simp [localManager.OnChange, localManager.Update]
  · intro ops hops w
    exact run_no_event_of_not_registered zeroT a ops ((m.OnChange a).OnChange b)
      (by simp [localManager.OnChange, Ne.symm hab]) hops w

/-- Witness for C5 at T = Nat, with observers 1 then 2 and Update(5): the
second registration replaces the first and only observer 2 fires. -/
theorem C5_single_observer_replacement_witness :
    (((Local (0 : Nat)).OnChange 1).OnChange 2 = (Local (0 : Nat)).OnChange 2) ∧
    ((((Local (0 : Nat)).OnChange 1).OnChange 2).Update 5).2.1 = [(2, 5)] :=
  ⟨(C5_single_observer_replacement 0 (Local 0) 1 2 (by decide) 5).2.1,
   (C5_single_observer_replacement 0 (Local 0) 1 2 (by decide) 5).2.2.1⟩

end config

namespace config

/-- Claim C6 counterexample at T = Nat with zero value 0: after Update(0)
the stored value is 0 (the zero value), and a subsequent InitData(7)
changes the stored value to 7 — so "after any Update(v) a subsequent
InitData(w) leaves the stored value unchanged, for every v and w" fails
at v = 0, w = 7, and the holder did transition back to the zero-valued
UNINITIALIZED state. -/
theorem C6_cex_update_zero_then_initdata :
    (((Local (0 : Nat)).Update 0).1).data = 0 ∧
    ((((Local (0 : Nat)).Update 0).1).InitData 0 7).data = 7 := by
  decide

/-- Claim C6 amended: after Update(v) with v different from the zero value
of T, the holder is initialized and a subsequent InitData(w) leaves the
stored value unchanged at v, for every w; the restriction v ≠ zero is
necessary because Update with the zero value re-enters the zero-valued
state, where InitData sets the value again. -/
theorem C6_amended_no_reinit_after_nonzero_update [DecidableEq T] (zeroT : T)
    (m : localManager T) (v w : T) (hv : v ≠ zeroT) :
    (((m.Update v).1).InitData zeroT w).data = v ∧ ((m.Update v).1).data = v := by
  have hdata : ((m.Update v).1).data = v := by
    cases h : m.callback <;> simp [localManager.Update, h]
  refine ⟨?_, hdata⟩
  simp [localManager.InitData, isZeroValue, hdata, hv]

/-- Witness for C6 amended at T = Nat: Update(5) then InitData(7) keeps
the stored value 5. -/
theorem C6_amended_no_reinit_after_nonzero_update_witness :
    ((((Local (0 : Nat)).Update 5).1).InitData 0 7).data = 5 ∧
    (((Local (0 : Nat)).Update 5).1).data = 5 :=
  C6_amended_no_reinit_after_nonzero_update 0 (Local 0) 5 7 (by decide)

/-- Claim C8 counterexample: Etcd at T = Nat yields the absent (nil)
Manager handle — the call neither fails fast nor returns a usable
"unsupported" implementation, contradicting the claim that it never
silently yields an unusable absent handle. -/
theorem C8_cex_etcd_returns_nil : Etcd Nat = none := rfl

/-- Claim C8 amended: every call to Etcd silently returns the absent (nil)
handle, for every value type; the variant is unimplemented only as a
source-comment TODO and performs no fail-fast reporting. -/
theorem C8_amended_etcd_always_nil : ∀ T : Type, Etcd T = none :=
  fun _ => rfl

end config
